import Mathlib

/-!
Verification of the Omni-Tutor repository.

This file gives a shallow embedding of the three verified components:
the model gateway (services/geminiService, stage 1), the history store
(services/historyService) and the tutoring session state machine (the
App component handlers), and proves the stated properties about them.

Machine-level aspects that are external collaborators of the repository
(the generative-model backend, the browser storage engine, media capture)
are modelled as explicit parameters: the remote response is a value of
type GatewayResponse, the persisted blob is a value of type StoredBlob,
and timestamps and generated ids are passed in as arguments.
-/

/-- A JavaScript JSON value, the result of a successful JSON.parse call. -/
inductive Json where
  | null
  | bool (b : Bool)
  | num (n : Int)
  | str (s : String)
  | arr (xs : List Json)
  | obj (fields : List (String × Json))

/-- Field lookup on a JS object (first matching key). -/
def flookup : List (String × Json) → String → Option Json
  | [], _ => none
  | (k, v) :: rest, key => if k = key then some v else flookup rest key

/-- Property assignment on a JS object: replaces the first occurrence of
the key, or appends the binding when the key is absent. -/
def fset : List (String × Json) → String → Json → List (String × Json)
  | [], k, v => [(k, v)]
  | (k0, v0) :: rest, k, v =>
      if k0 = k then (k, v) :: rest else (k0, v0) :: fset rest k v

/-- Property read on an arbitrary JS value; a non-object has no fields. -/
def jget : Json → String → Option Json
  | .obj fs, key => flookup fs key
  | _, _ => none

/-! ## Model gateway (services/geminiService, stage 1) -/

/-- An uploaded file, as far as the verified code inspects it: its
declared MIME type and its byte size. -/
structure ImgFile where
  type : String
  size : Nat
deriving DecidableEq, Repr

/-- The environment half of one stage-1 round trip: what the remote
generative-model service did with the request. -/
inductive GatewayResponse where
  | requestFailed
  | noText
  | unparsable
  | parsed (j : Json)

/-- Errors raised out of analyzeHomework: the missing-credential error
thrown by getAIClient outside the try block, and the single wrapped
gateway error thrown by the catch block. -/
inductive AppError where
  | configError
  | gatewayError (msg : String)

/-- Models the two compatibility assignments
data.diagnosed_error_step and data.status performed on the parsed value:
on a plain object they set the fields; on an array the expando properties
are invisible to the JSON value; on a primitive or null the strict-mode
assignment raises a TypeError, modelled as none. -/
def assignCompat : Json → Option Json
  | .obj fs =>
      some (.obj (fset (fset fs "diagnosed_error_step" (.str "Concept Error"))
        "status" (.str "Diagnosis")))
  | .arr xs => some (.arr xs)
  | _ => none

/-- Shallow embedding of analyzeHomework (stage 1). The prompt assembly
only packages the inputs for the remote service, so the inputs are
carried as parameters and the response is the GatewayResponse argument.
A missing API key throws before the try block; every failure inside the
try block is wrapped into the single stage-1 error message. -/
def analyzeHomework (apiKeyPresent : Bool) (_imageFile : Option ImgFile)
    (_textContext : String) (_audioBlob : Option Nat)
    (resp : GatewayResponse) : Except AppError Json :=
  if apiKeyPresent = false then .error .configError
  else
    match resp with
    | .requestFailed => .error (.gatewayError "Failed to diagnose homework.")
    | .noText => .error (.gatewayError "Failed to diagnose homework.")
    | .unparsable => .error (.gatewayError "Failed to diagnose homework.")
    | .parsed j =>
        match assignCompat j with
        | some j2 => .ok j2
        | none => .error (.gatewayError "Failed to diagnose homework.")

/-- A required field of type STRING, as in the declared schemas. -/
def isStrVal : Option Json → Bool
  | some (.str _) => true
  | _ => false

/-- The required stage field of diagnosisSchema, a string constrained to
the single-element enum INITIAL_DIAGNOSIS. -/
def isStageLit : Option Json → Bool
  | some (.str s) => s = "INITIAL_DIAGNOSIS"
  | _ => false

/-- Conformance of a JSON value to the new_practice_question schema
declared in diagnosisSchema: an object with required string fields
topic and question_text. -/
def conformsPracticeQuestion (j : Json) : Bool :=
  match j with
  | .obj fs =>
      isStrVal (flookup fs "topic") && isStrVal (flookup fs "question_text")
  | _ => false

/-- The required new_practice_question field of diagnosisSchema. -/
def isConformingQ : Option Json → Bool
  | some q => conformsPracticeQuestion q
  | none => false

/-- Conformance of a JSON value to diagnosisSchema as declared to the
remote service: an object with the five required fields, stage drawn
from its enum, and a conforming nested practice question. -/
def conformsDiagnosisSchema (j : Json) : Bool :=
  match j with
  | .obj fs =>
      isStageLit (flookup fs "stage")
      && isStrVal (flookup fs "conceptual_misunderstanding")
      && isConformingQ (flookup fs "new_practice_question")
      && isStrVal (flookup fs "tutor_feedback")
      && isStrVal (flookup fs "next_instruction")
  | _ => false

/-- Whether a returned value carries all five required stage-1 fields. -/
def hasStage1Fields (j : Json) : Bool :=
  (jget j "stage").isSome
  && (jget j "conceptual_misunderstanding").isSome
  && (jget j "new_practice_question").isSome
  && (jget j "tutor_feedback").isSome
  && (jget j "next_instruction").isSome

/-! ## History store (services/historyService) -/

/-- The persisted blob under the omni_tutor_history key, as seen through
localStorage.getItem followed by JSON.parse: the key may be absent, the
stored text may fail to parse, or it parses to some JSON value. -/
inductive StoredBlob where
  | absent
  | unparsable
  | value (j : Json)

/-- Shallow embedding of getHistory: an absent key or a parse exception
yields the empty array; otherwise the parsed value is returned as is
(the cast to a HistoryItem array performs no check). -/
def getHistory : StoredBlob → Json
  | .absent => .arr []
  | .unparsable => .arr []
  | .value j => j

/-- JS array-spread semantics on the value getHistory returned: arrays
spread to their elements, strings iterate to their characters, every
other value is not iterable and the spread raises a TypeError (none). -/
def spreadElems : Json → Option (List Json)
  | .arr xs => some xs
  | .str s => some (s.data.map (fun c => .str (String.mk [c])))
  | _ => none

/-- The new HistoryItem object literal built by saveToHistory: the spread
of the diagnosis result followed by the user_context, id and timestamp
bindings. -/
def mkHistoryItem (result : List (String × Json)) (userContext id : String)
    (ts : Nat) : Json :=
  .obj (fset (fset (fset result "user_context" (.str userContext))
    "id" (.str id)) "timestamp" (.num ts))

/-- Shallow embedding of saveToHistory. It rereads the blob through
getHistory, builds the new item, spreads the prior value after it,
truncates to 50 and persists the serialized array. A prior value that is
not iterable makes the spread throw, modelled as none. -/
def saveToHistory (blob : StoredBlob) (result : List (String × Json))
    (userContext id : String) (ts : Nat) : Option (StoredBlob × Json) :=
  let history := getHistory blob
  let newItem := mkHistoryItem result userContext id ts
  match spreadElems history with
  | none => none
  | some elems => some (.value (.arr ((newItem :: elems).take 50)), newItem)

/-- Shallow embedding of clearHistory: the key is removed. -/
def clearHistory (_blob : StoredBlob) : StoredBlob :=
  .absent

/-- The arguments of one saveToHistory call: the diagnosis object fields,
the user context, and the generated id and timestamp. -/
structure SaveArgs where
  result : List (String × Json)
  ctx : String
  id : String
  ts : Nat

/-- The HistoryItem a given call creates. -/
def itemOf (c : SaveArgs) : Json :=
  mkHistoryItem c.result c.ctx c.id c.ts

/-- Runs a sequence of saveToHistory calls, propagating a thrown
exception as none. -/
def recordAll (blob : StoredBlob) : List SaveArgs → Option StoredBlob
  | [] => some blob
  | c :: rest =>
      match saveToHistory blob c.result c.ctx c.id c.ts with
      | none => none
      | some (b2, _) => recordAll b2 rest

/-! ## App data model (types) -/

/-- The role of a chat message. -/
inductive Role where
  | user
  | tutor
deriving DecidableEq, Repr

/-- The feedbackType tag of a tutor message. -/
inductive FeedbackType where
  | CORRECT
  | CONCEPT_ERROR
  | CALCULATION_ERROR
  | INFO
deriving DecidableEq, Repr

/-- The stage-2 evaluation_result enum. -/
inductive EvalResult where
  | CORRECT
  | CONCEPT_ERROR
  | CALCULATION_ERROR
deriving DecidableEq, Repr

/-- The stage-2 dialogue_action enum. -/
inductive DialogueAction where
  | CONTINUE
  | MASTERY_ACHIEVED
deriving DecidableEq, Repr

/-- PracticeQuestion from types. -/
structure PracticeQuestion where
  subject : Option String
  topic : String
  question_text : String
deriving DecidableEq, Repr

/-- InitialDiagnosis from types; the stage field is the fixed literal and
the two compatibility fields are optional. -/
structure InitialDiagnosis where
  conceptual_misunderstanding : String
  new_practice_question : PracticeQuestion
  tutor_feedback : String
  next_instruction : String
  diagnosed_error_step : Option String
  status : Option String
deriving DecidableEq, Repr

/-- FeedbackResult from types (stage literal omitted). -/
structure FeedbackResult where
  evaluation_result : EvalResult
  feedback_message : String
  dialogue_action : DialogueAction
  next_instruction : String
deriving DecidableEq, Repr

/-- ChatMessage from types. Audio payloads are opaque, identified by a
number. -/
structure ChatMessage where
  role : Role
  content : String
  audioUrl : Option String
  timestamp : Nat
  feedbackType : Option FeedbackType
deriving DecidableEq, Repr

/-- HistoryItem from types: an InitialDiagnosis extended with an id, a
creation timestamp and the captured user context. -/
structure HistoryItem extends InitialDiagnosis where
  id : String
  timestamp : Nat
  user_context : Option String
deriving DecidableEq, Repr

/-- The cast of evaluation_result into the feedbackType field performed
when the tutor message is built. -/
def evalToFb : EvalResult → FeedbackType
  | .CORRECT => .CORRECT
  | .CONCEPT_ERROR => .CONCEPT_ERROR
  | .CALCULATION_ERROR => .CALCULATION_ERROR

/-! ## App component state and handlers -/

/-- The React state of the App component, together with the persisted
history list (store). At the App level the persisted history is the
well-formed list the component itself writes. Audio blobs are opaque
numbers. -/
structure AppState where
  image : Option ImgFile
  previewUrl : Option String
  textInput : String
  audioBlob : Option Nat
  diagnosis : Option InitialDiagnosis
  chatHistory : List ChatMessage
  replyText : String
  replyAudio : Option Nat
  isMasteryAchieved : Bool
  isLoading : Bool
  error : Option String
  history : List HistoryItem
  store : List HistoryItem
  showHistory : Bool
deriving DecidableEq, Repr

/-- MAX_FILE_SIZE_BYTES from the App component. -/
def MAX_FILE_SIZE_BYTES : Nat := 10 * 1024 * 1024

/-- ALLOWED_TYPES from the App component. -/
def ALLOWED_TYPES : List String := ["image/jpeg", "image/png", "image/webp"]

/-- Shallow embedding of validateFile. -/
def validateFile (f : ImgFile) : Option String :=
  if f.type ∉ ALLOWED_TYPES then
    some "Invalid file format. Please upload a JPG, PNG, or WebP image."
  else if f.size > MAX_FILE_SIZE_BYTES then
    some "File size exceeds the 10MB limit. Please upload a smaller image."
  else
    none

/-- Shallow embedding of handleImageUpload for a chosen file: a failed
validation only sets the error message (and clears the DOM input); a
valid file is installed and every session field is reset. The object URL
for the preview is outside the model and is represented by the constant
marker below. -/
def handleImageUpload (s : AppState) (f : ImgFile) : AppState :=
  match validateFile f with
  | some err => { s with error := some err }
  | none =>
      { s with image := some f, previewUrl := some "objectURL",
               diagnosis := none, chatHistory := [],
               replyText := "", replyAudio := none,
               isMasteryAchieved := false, error := none }

/-- Shallow embedding of handleDrop; the state effect is identical to a
validated file-input upload. -/
def handleDrop (s : AppState) (f : ImgFile) : AppState :=
  handleImageUpload s f

/-- The HistoryItem built inside saveToHistory, at the typed App level. -/
def mkHistoryItemT (d : InitialDiagnosis) (ctx id : String) (ts : Nat) :
    HistoryItem :=
  { toInitialDiagnosis := d, user_context := some ctx, id := id,
    timestamp := ts }

/-- Shallow embedding of handleInitialAnalysis (stage 1 in the App).
The gateway outcome, the two Date.now readings (chat timestamp and
history timestamp) and the generated id are parameters. The Bool of the
result records whether the gateway was invoked. -/
def handleInitialAnalysis (s : AppState) (nowChat nowItem : Nat)
    (id : String) (outcome : Except String InitialDiagnosis) :
    AppState × Bool :=
  if s.image = none then
    ({ s with error := some "Please upload an image of your homework first." },
     false)
  else
    match outcome with
    | .ok data =>
        let item := mkHistoryItemT data s.textInput id nowItem
        let store2 := (item :: s.store).take 50
        ({ s with diagnosis := some data,
                  chatHistory := [{ role := .tutor,
                                    content := data.next_instruction,
                                    audioUrl := none, timestamp := nowChat,
                                    feedbackType := some .INFO }],
                  store := store2, history := store2,
                  replyText := "", replyAudio := none,
                  isLoading := false, error := none }, true)
    | .error m =>
        ({ s with error := some (if m = "" then "An unexpected error occurred." else m),
                  isLoading := false }, true)

/-- The optimistic user message handlePracticeReply appends before the
gateway call resolves. -/
def userMsgOf (s : AppState) (now : Nat) : ChatMessage :=
  { role := .user,
    content := if s.replyText = "" then "(Audio Response)" else s.replyText,
    audioUrl := none, timestamp := now, feedbackType := none }

/-- The tutor message handlePracticeReply appends on gateway success. -/
def tutorMsgOf (fb : FeedbackResult) (now : Nat) : ChatMessage :=
  { role := .tutor,
    content := fb.feedback_message ++ " " ++ fb.next_instruction,
    audioUrl := none, timestamp := now,
    feedbackType := some (evalToFb fb.evaluation_result) }

/-- Shallow embedding of handlePracticeReply (stage 2 in the App). The
guard returns immediately when there is no input and no reply audio, or
no active diagnosis. Otherwise the user message is appended, the reply
inputs are cleared, and the gateway outcome decides whether a tutor
message is appended (setting the mastery flag on MASTERY_ACHIEVED) or
the error message is set. The Bool records whether the gateway was
invoked. -/
def handlePracticeReply (s : AppState) (nowUser nowTutor : Nat)
    (outcome : Except String FeedbackResult) : AppState × Bool :=
  if (s.replyText = "" ∧ s.replyAudio = none) ∨ s.diagnosis = none then
    (s, false)
  else
    let userMsg := userMsgOf s nowUser
    let updated := s.chatHistory ++ [userMsg]
    match outcome with
    | .ok fb =>
        ({ s with chatHistory := updated ++ [tutorMsgOf fb nowTutor],
                  replyText := "", replyAudio := none,
                  isMasteryAchieved :=
                    if fb.dialogue_action = .MASTERY_ACHIEVED then true
                    else s.isMasteryAchieved,
                  isLoading := false }, true)
    | .error m =>
        ({ s with chatHistory := updated,
                  replyText := "", replyAudio := none,
                  error := some (if m = "" then "Failed to get feedback." else m),
                  isLoading := false }, true)

/-- Shallow embedding of handleHistorySelect: installs the stored item as
the active diagnosis, leaves the history view, resynthesizes the
one-message transcript from the stored next_instruction, and clears the
other inputs and the mastery flag. -/
def handleHistorySelect (s : AppState) (item : HistoryItem) : AppState :=
  { s with diagnosis := some item.toInitialDiagnosis,
           showHistory := false,
           chatHistory := [{ role := .tutor,
                             content := item.next_instruction,
                             audioUrl := none, timestamp := item.timestamp,
                             feedbackType := some .INFO }],
           image := none, previewUrl := none, audioBlob := none,
           replyText := "", replyAudio := none,
           error := none, isMasteryAchieved := false }

/-- Shallow embedding of the Upload New Homework button of the mastery
panel: it clears the image, the preview, the diagnosis and the chat and
opens the file picker (the picker itself is outside the state). -/
def startNewFromMastery (s : AppState) : AppState :=
  { s with image := none, previewUrl := none, diagnosis := none,
           chatHistory := [] }

/-- Shallow embedding of handleClearHistory after a confirmed dialog. -/
def handleClearHistory (s : AppState) : AppState :=
  { s with store := [], history := [] }

/-- Whether the reply textarea and the Reply button are rendered: the
main view must be shown, a diagnosis must be active, and the mastery
panel must not have replaced the input area. -/
def replyControlsRendered (s : AppState) : Bool :=
  !s.showHistory && s.diagnosis.isSome && !s.isMasteryAchieved

/-- The discrete user-interface events of the App, with the data each
carries (gateway outcomes, clock readings, generated ids). -/
inductive Event where
  | uploadImage (f : ImgFile)
  | dropImage (f : ImgFile)
  | editText (t : String)
  | recordAudio (a : Option Nat)
  | editReplyText (t : String)
  | recordReplyAudio (a : Option Nat)
  | submitAnalysis (nowChat nowItem : Nat) (id : String)
      (outcome : Except String InitialDiagnosis)
  | submitReply (nowUser nowTutor : Nat)
      (outcome : Except String FeedbackResult)
  | selectHistory (item : HistoryItem)
  | clearAll (confirmed : Bool)
  | toggleHistory
  | newFromMastery

/-- The events that replace the active session with a fresh one: a new
homework upload (via the file input or drag and drop) and loading a
stored diagnosis from the history view. -/
def startsNewSession : Event → Bool
  | .uploadImage _ => true
  | .dropImage _ => true
  | .selectHistory _ => true
  | _ => false

/-- One step of the App: the handler each event invokes, guarded by
whether the triggering control is rendered and enabled in the current
state. The Bool records whether a gateway call was made. -/
def step (s : AppState) : Event → AppState × Bool
  | .uploadImage f => (handleImageUpload s f, false)
  | .dropImage f =>
      if !s.showHistory && s.image.isNone then (handleDrop s f, false)
      else (s, false)
  | .editText t =>
      if !s.showHistory && s.diagnosis.isNone then
        ({ s with textInput := t }, false)
      else (s, false)
  | .recordAudio a =>
      if !s.showHistory && s.diagnosis.isNone then
        ({ s with audioBlob := a }, false)
      else (s, false)
  | .editReplyText t =>
      if replyControlsRendered s then ({ s with replyText := t }, false)
      else (s, false)
  | .recordReplyAudio a =>
      if replyControlsRendered s then ({ s with replyAudio := a }, false)
      else (s, false)
  | .submitAnalysis n1 n2 id o =>
      if !s.showHistory && s.diagnosis.isNone && !s.isLoading
          && s.image.isSome then
        handleInitialAnalysis s n1 n2 id o
      else (s, false)
  | .submitReply n1 n2 o =>
      if replyControlsRendered s then handlePracticeReply s n1 n2 o
      else (s, false)
  | .selectHistory item =>
      if s.showHistory then (handleHistorySelect s item, false)
      else (s, false)
  | .clearAll confirmed =>
      if s.showHistory && confirmed then (handleClearHistory s, false)
      else (s, false)
  | .toggleHistory => ({ s with showHistory := !s.showHistory }, false)
  | .newFromMastery =>
      if !s.showHistory && s.diagnosis.isSome && s.isMasteryAchieved then
        (startNewFromMastery s, false)
      else (s, false)

/-! ## Helper lemmas -/

/-- Field lookup after a property assignment. -/
theorem flookup_fset (fs : List (String × Json)) (k key : String) (v : Json) :
    flookup (fset fs k v) key
      = if key = k then some v else flookup fs key := by
  induction fs with
  | nil =>
      by_cases h : key = k
      · simp [fset, flookup, h]
      · simp [fset, flookup, h, Ne.symm h]
  | cons p rest ih =>
      obtain ⟨k0, v0⟩ := p
      by_cases h0 : k0 = k
      · subst h0
        by_cases h1 : k0 = key
        · subst h1
          simp [fset, flookup]
        · simp [fset, flookup, h1, Ne.symm h1]
      · by_cases h1 : k0 = key
        · subst h1
          simp [fset, flookup, h0]
        · simp [fset, flookup, h0, h1, ih]

/-- A present field stays present through a property assignment. -/
theorem flookup_fset_isSome (fs : List (String × Json)) (k key : String)
    (v : Json) (h : (flookup fs key).isSome) :
    (flookup (fset fs k v) key).isSome := by
  rw [flookup_fset]
  by_cases hk : key = k
  · simp [hk]
  · simpa [hk] using h

/-- A field passing the declared STRING check is present. -/
theorem isSome_of_isStrVal (o : Option Json) (h : isStrVal o = true) :
    o.isSome := by
  cases o with
  | none => simp [isStrVal] at h
  | some j => rfl

/-- A field passing the declared stage-enum check is present. -/
theorem isSome_of_isStageLit (o : Option Json) (h : isStageLit o = true) :
    o.isSome := by
  cases o with
  | none => simp [isStageLit] at h
  | some j => rfl

/-- A field passing the nested practice-question check is present. -/
theorem isSome_of_isConformingQ (o : Option Json) (h : isConformingQ o = true) :
    o.isSome := by
  cases o with
  | none => simp [isConformingQ] at h
  | some j => rfl

/-- Truncating the tail of an append before truncating the whole append
changes nothing. -/
theorem take_append_take {α : Type} (r l : List α) (n : Nat) :
    (r ++ l.take n).take n = (r ++ l).take n := by
  rw [List.take_append_eq_append_take, List.take_append_eq_append_take,
    List.take_take]
  congr 1
  exact congrArg (fun m => l.take m) (Nat.min_eq_left (Nat.sub_le n r.length))

/-- Running a sequence of saveToHistory calls from a well-formed stored
array never throws and yields the reversed item sequence prepended to
the prior contents, truncated to 50. -/
theorem recordAll_arr (calls : List SaveArgs) (l : List Json)
    (hl : l.length ≤ 50) :
    recordAll (.value (.arr l)) calls
      = some (.value (.arr (((calls.map itemOf).reverse ++ l).take 50))) := by
  induction calls generalizing l with
  | nil =>
      simp [recordAll, List.take_of_length_le hl]
  | cons c cs ih =>
      have hstep : saveToHistory (.value (.arr l)) c.result c.ctx c.id c.ts
          = some (.value (.arr ((itemOf c :: l).take 50)), itemOf c) := rfl
      have hlen : ((itemOf c :: l).take 50).length ≤ 50 :=
        List.length_take_le 50 (itemOf c :: l)
      calc recordAll (.value (.arr l)) (c :: cs)
          = recordAll (.value (.arr ((itemOf c :: l).take 50))) cs := by
            simp [recordAll, hstep]
        _ = some (.value (.arr (((cs.map itemOf).reverse
              ++ (itemOf c :: l).take 50).take 50))) := ih _ hlen
        _ = some (.value (.arr ((((c :: cs).map itemOf).reverse ++ l).take 50))) := by
            rw [take_append_take]
            simp [List.append_assoc]

/-! ## Claim theorems: history store -/

/-- Claim C3: after any finite sequence of record (saveToHistory) calls
starting from an empty store, the persisted history parses to an array
of length at most 50 holding exactly the most recently recorded items,
most recent first; recording a 51st item evicts the oldest. -/
theorem saveToHistory_bounded_recent (calls : List SaveArgs) :
    ∃ b, recordAll .absent calls = some b
      ∧ getHistory b = .arr (((calls.map itemOf).reverse).take 50)
      ∧ ((((calls.map itemOf).reverse).take 50)).length ≤ 50 := by
  cases calls with
  | nil =>
      exact ⟨.absent, rfl, rfl, by simp⟩
  | cons c cs =>
      have hstep : recordAll StoredBlob.absent (c :: cs)
          = recordAll (.value (.arr [itemOf c])) cs := rfl
      have h2 := recordAll_arr cs [itemOf c] (by simp)
      refine ⟨_, hstep.trans h2, ?_, List.length_take_le 50 _⟩
      simp [getHistory]

/-- Claim C7: record (saveToHistory) preserves ordering: on any stored
array the newly created item is prepended (so the most recent item is
first), the retained prior items are the first 49 of the prior store in
unchanged relative order, and after any sequence of further calls the
last recorded item is first while the remaining items are an
order-preserving sublist of the previously recorded sequence. -/
theorem saveToHistory_ordering (l : List Json) (c : SaveArgs)
    (calls : List SaveArgs) (hl : l.length ≤ 50) :
    (saveToHistory (.value (.arr l)) c.result c.ctx c.id c.ts
        = some (.value (.arr (itemOf c :: l.take 49)), itemOf c))
    ∧ (l.take 49).Sublist l
    ∧ (∃ b, recordAll (.value (.arr l)) (calls ++ [c]) = some b
        ∧ getHistory b
            = .arr (itemOf c :: ((calls.map itemOf).reverse ++ l).take 49)
        ∧ (((calls.map itemOf).reverse ++ l).take 49).Sublist
            ((calls.map itemOf).reverse ++ l)) := by
  refine ⟨rfl, List.take_sublist 49 l, ?_⟩
  have h := recordAll_arr (calls ++ [c]) l hl
  refine ⟨_, h, ?_, List.take_sublist 49 _⟩
  simp [getHistory, List.take_succ_cons]

/-- Claim C10 evaluation: a persisted blob that parses to the empty JSON
object slips through the parse-only guard of getHistory and makes
saveToHistory throw on the array spread, so record does fail on a
corrupted (valid-JSON, non-array) blob. -/
theorem saveToHistory_objBlob_throws :
    getHistory (.value (.obj [])) = .obj []
    ∧ saveToHistory (.value (.obj [])) [] "ctx" "id1" 0 = none :=
  ⟨rfl, rfl⟩

/-! ## Claim theorems: model gateway -/

/-- Claim C1 counterexample: with an image, empty text and no audio, a
remote response that is the valid JSON text of an empty object makes
diagnose (analyzeHomework) return successfully, yet the returned object
carries none of the five required stage-1 fields; the claim that
diagnose either returns all five fields or fails with a GatewayError is
therefore false on the code. -/
theorem analyzeHomework_partial_counterexample :
    ∃ j, analyzeHomework true (some { type := "image/jpeg", size := 2048 })
          "" none (.parsed (.obj [])) = .ok j
      ∧ hasStage1Fields j = false :=
  ⟨_, rfl, rfl⟩

/-- Claim C1 (amended): for every combination of image, text context and
audio input, diagnose (analyzeHomework) either fails with a GatewayError
or returns the parsed response object; whenever the response conforms to
the schema declared to the remote service, the returned object carries
all five required stage-1 fields. No local field-by-field validation is
performed, so a syntactically valid but non-conforming response is
returned as is. -/
theorem analyzeHomework_gateway_or_full (img : Option ImgFile)
    (txt : String) (aud : Option Nat) (resp : GatewayResponse) :
    (∃ m, analyzeHomework true img txt aud resp = .error (.gatewayError m))
    ∨ (∃ j, analyzeHomework true img txt aud resp = .ok j
        ∧ ∀ j0, resp = .parsed j0 → conformsDiagnosisSchema j0 = true →
            hasStage1Fields j = true) := by
  cases resp with
  | requestFailed => exact .inl ⟨_, rfl⟩
  | noText => exact .inl ⟨_, rfl⟩
  | unparsable => exact .inl ⟨_, rfl⟩
  | parsed j =>
      cases j with
      | obj fs =>
          refine .inr ⟨_, rfl, ?_⟩
          intro j0 hj0 hconf
          cases hj0
          simp only [conformsDiagnosisSchema, Bool.and_eq_true] at hconf
          obtain ⟨⟨⟨⟨h1, h2⟩, h3⟩, h4⟩, h5⟩ := hconf
          have p1 := isSome_of_isStageLit _ h1
          have p2 := isSome_of_isStrVal _ h2
          have p3 := isSome_of_isConformingQ _ h3
          have p4 := isSome_of_isStrVal _ h4
          have p5 := isSome_of_isStrVal _ h5
          simp only [hasStage1Fields, jget, Bool.and_eq_true]
          refine ⟨⟨⟨⟨?_, ?_⟩, ?_⟩, ?_⟩, ?_⟩ <;>
            exact flookup_fset_isSome _ _ _ _ (flookup_fset_isSome _ _ _ _ (by assumption))
      | null => exact .inl ⟨_, rfl⟩
      | bool b => exact .inl ⟨_, rfl⟩
      | num n => exact .inl ⟨_, rfl⟩
      | str s => exact .inl ⟨_, rfl⟩
      | arr xs =>
          refine .inr ⟨_, rfl, ?_⟩
          intro j0 hj0 hconf
          cases hj0
          simp [conformsDiagnosisSchema] at hconf

/-! ## Claim theorems: tutoring session state machine -/

/-- Claim C2: once the mastery flag is set, the state is terminal for the
session: the reply-submission event is rejected without a gateway call
and without any state change (the reply controls are replaced by the
mastery panel), and every event either keeps the flag set or is one of
the new-session actions (uploading new homework, or loading a stored
diagnosis, both of which install a fresh session). -/
theorem mastery_is_terminal (s : AppState) (e : Event) (n1 n2 : Nat)
    (o : Except String FeedbackResult) (h : s.isMasteryAchieved = true) :
    step s (.submitReply n1 n2 o) = (s, false)
    ∧ ((step s e).1.isMasteryAchieved = true ∨ startsNewSession e = true) := by
  constructor
  · simp [step, replyControlsRendered, h]
  · cases e with
    | uploadImage f => exact .inr rfl
    | dropImage f => exact .inr rfl
    | selectHistory item => exact .inr rfl
    | editText t =>
        left; simp only [step]; split <;> simp [h]
    | recordAudio a =>
        left; simp only [step]; split <;> simp [h]
    | editReplyText t =>
        left; simp only [step]; split <;> simp [h]
    | recordReplyAudio a =>
        left; simp only [step]; split <;> simp [h]
    | submitAnalysis m1 m2 id o2 =>
        left; simp only [step]
        split
        · simp only [handleInitialAnalysis]
          split
          · simp [h]
          · cases o2 <;> simp [h]
        · simp [h]
    | submitReply m1 m2 o2 =>
        left; simp [step, replyControlsRendered, h]
    | clearAll confirmed =>
        left; simp only [step]; split <;> simp [handleClearHistory, h]
    | toggleHistory =>
        left; simp [step, h]
    | newFromMastery =>
        left; simp only [step]; split <;> simp [startNewFromMastery, h]

/-- Claim C4: a fresh successful diagnosis and a history load both set
the chat transcript to exactly one tutor message whose content is the
next_instruction of the newly active diagnosis. -/
theorem transcript_initialized_from_next_instruction (s s2 : AppState)
    (n1 n2 : Nat) (id : String) (d : InitialDiagnosis) (item : HistoryItem)
    (h : s.image ≠ none) :
    (handleInitialAnalysis s n1 n2 id (.ok d)).1.diagnosis = some d
    ∧ (handleInitialAnalysis s n1 n2 id (.ok d)).1.chatHistory
        = [{ role := .tutor, content := d.next_instruction, audioUrl := none,
             timestamp := n1, feedbackType := some .INFO }]
    ∧ (handleHistorySelect s2 item).diagnosis = some item.toInitialDiagnosis
    ∧ (handleHistorySelect s2 item).chatHistory
        = [{ role := .tutor, content := item.next_instruction,
             audioUrl := none, timestamp := item.timestamp,
             feedbackType := some .INFO }] := by
  refine ⟨?_, ?_, rfl, rfl⟩ <;> simp [handleInitialAnalysis, h]

/-- Claim C5: a practice reply in an active session (non-empty text or a
present audio clip, mastery not yet achieved) makes exactly one gateway
call and appends the optimistic user message, whose content is the typed
text or the fixed audio placeholder, followed on success by a tutor
message concatenating feedback_message and next_instruction and tagged
with the evaluation result; the session transitions to mastery exactly
when dialogue_action is MASTERY_ACHIEVED and otherwise stays active with
the same diagnosis. -/
theorem practice_reply_success (s : AppState) (n1 n2 : Nat)
    (fb : FeedbackResult) (d : InitialDiagnosis)
    (hd : s.diagnosis = some d)
    (hin : s.replyText ≠ "" ∨ s.replyAudio ≠ none)
    (hm : s.isMasteryAchieved = false) :
    (handlePracticeReply s n1 n2 (.ok fb)).2 = true
    ∧ (handlePracticeReply s n1 n2 (.ok fb)).1.chatHistory
        = s.chatHistory ++ [userMsgOf s n1, tutorMsgOf fb n2]
    ∧ (userMsgOf s n1).content
        = (if s.replyText = "" then "(Audio Response)" else s.replyText)
    ∧ (tutorMsgOf fb n2).content
        = fb.feedback_message ++ " " ++ fb.next_instruction
    ∧ (tutorMsgOf fb n2).feedbackType = some (evalToFb fb.evaluation_result)
    ∧ (handlePracticeReply s n1 n2 (.ok fb)).1.diagnosis = some d
    ∧ (handlePracticeReply s n1 n2 (.ok fb)).1.isMasteryAchieved
        = decide (fb.dialogue_action = .MASTERY_ACHIEVED) := by
  have hg : ¬ ((s.replyText = "" ∧ s.replyAudio = none) ∨ s.diagnosis = none) := by
    rintro (⟨ht, ha⟩ | hdn)
    · rcases hin with h | h
      · exact h ht
      · exact h ha
    · rw [hd] at hdn; exact Option.noConfusion hdn
  have key : handlePracticeReply s n1 n2 (.ok fb)
      = ({ s with
            chatHistory := (s.chatHistory ++ [userMsgOf s n1])
              ++ [tutorMsgOf fb n2],
            replyText := "", replyAudio := none,
            isMasteryAchieved :=
              if fb.dialogue_action = .MASTERY_ACHIEVED then true
              else s.isMasteryAchieved,
            isLoading := false }, true) := by
    unfold handlePracticeReply
    rw [if_neg hg]
  refine ⟨by rw [key], by rw [key]; simp, rfl, rfl, rfl, by rw [key]; exact hd,
    ?_⟩
  rw [key]
  simp only [hm]
  by_cases hda : fb.dialogue_action = .MASTERY_ACHIEVED <;> simp [hda]

/-- Claim C6: when the stage-2 gateway call fails, the optimistic user
message is retained, the transcript gains nothing else, the session
stays active with its diagnosis and mastery flag unchanged, and the
error is surfaced in the separate error field rather than the
transcript. -/
theorem practice_reply_failure (s : AppState) (n1 n2 : Nat) (m : String)
    (d : InitialDiagnosis) (hd : s.diagnosis = some d)
    (hin : s.replyText ≠ "" ∨ s.replyAudio ≠ none) :
    (handlePracticeReply s n1 n2 (.error m)).2 = true
    ∧ (handlePracticeReply s n1 n2 (.error m)).1.chatHistory
        = s.chatHistory ++ [userMsgOf s n1]
    ∧ (handlePracticeReply s n1 n2 (.error m)).1.diagnosis = s.diagnosis
    ∧ (handlePracticeReply s n1 n2 (.error m)).1.isMasteryAchieved
        = s.isMasteryAchieved
    ∧ (handlePracticeReply s n1 n2 (.error m)).1.error
        = some (if m = "" then "Failed to get feedback." else m) := by
  have hg : ¬ ((s.replyText = "" ∧ s.replyAudio = none) ∨ s.diagnosis = none) := by
    rintro (⟨ht, ha⟩ | hdn)
    · rcases hin with h | h
      · exact h ht
      · exact h ha
    · rw [hd] at hdn; exact Option.noConfusion hdn
  refine ⟨?_, ?_, ?_, ?_, ?_⟩ <;> simp [handlePracticeReply, hg]

/-- Claim C8: an upload whose MIME type is not JPEG, PNG or WebP, or
whose size exceeds the 10 MB cap, is rejected locally: validateFile
produces a validation message, the upload event only records that
message, no gateway call is made, and the diagnosis, transcript and
mastery flag are untouched. -/
theorem invalid_upload_rejected_locally (s : AppState) (f : ImgFile)
    (h : f.type ∉ ALLOWED_TYPES ∨ f.size > MAX_FILE_SIZE_BYTES) :
    ∃ m, validateFile f = some m
      ∧ step s (.uploadImage f) = ({ s with error := some m }, false) := by
  by_cases ht : f.type ∈ ALLOWED_TYPES
  · have hsz : f.size > MAX_FILE_SIZE_BYTES := by
      rcases h with h | h
      · exact absurd ht h
      · exact h
    refine ⟨"File size exceeds the 10MB limit. Please upload a smaller image.",
      ?_, ?_⟩
    · simp [validateFile, ht, hsz]
    · simp [step, handleImageUpload, validateFile, ht, hsz]
  · refine ⟨"Invalid file format. Please upload a JPG, PNG, or WebP image.",
      ?_, ?_⟩
    · simp [validateFile, ht]
    · simp [step, handleImageUpload, validateFile, ht]

/-- Claim C9: invoking the practice-reply transition with no active
diagnosis, or with empty reply text and no reply audio, is a complete
no-op: the state is returned unchanged and no gateway call is made. -/
theorem practice_reply_noop (s : AppState) (n1 n2 : Nat)
    (o : Except String FeedbackResult)
    (h : (s.replyText = "" ∧ s.replyAudio = none) ∨ s.diagnosis = none) :
    handlePracticeReply s n1 n2 o = (s, false) := by
  unfold handlePracticeReply
  rw [if_pos h]

/-! ## Concrete fixtures for the witnesses -/

/-- A concrete idle application state. -/
def idleState : AppState :=
  { image := none, previewUrl := none, textInput := "", audioBlob := none,
    diagnosis := none, chatHistory := [], replyText := "", replyAudio := none,
    isMasteryAchieved := false, isLoading := false, error := none,
    history := [], store := [], showHistory := false }

/-- A concrete diagnosis. -/
def diagEx : InitialDiagnosis :=
  { conceptual_misunderstanding := "confuses momentum and energy",
    new_practice_question :=
      { subject := none, topic := "Newton second law",
        question_text := "Find the acceleration." },
    tutor_feedback := "Good effort.",
    next_instruction := "State the net force first.",
    diagnosed_error_step := none, status := none }

/-- A concrete feedback result. -/
def fbEx : FeedbackResult :=
  { evaluation_result := .CORRECT, feedback_message := "Well done.",
    dialogue_action := .MASTERY_ACHIEVED,
    next_instruction := "You are done." }

/-- A concrete history item. -/
def itemEx : HistoryItem :=
  { toInitialDiagnosis := diagEx, id := "k3x", timestamp := 5,
    user_context := some "I was confused" }

/-- A concrete state holding a pending upload. -/
def imageState : AppState :=
  { idleState with image := some { type := "image/jpeg", size := 2048 } }

/-- A concrete active session with a typed reply. -/
def activeState : AppState :=
  { idleState with
    diagnosis := some diagEx, replyText := "F = ma",
    chatHistory := [{ role := .tutor,
                      content := "State the net force first.",
                      audioUrl := none, timestamp := 1,
                      feedbackType := some .INFO }] }

/-- A concrete session in the mastery-achieved state. -/
def masteryState : AppState :=
  { idleState with diagnosis := some diagEx, isMasteryAchieved := true }

/-- Concrete arguments of one record call. -/
def argsEx : SaveArgs :=
  { result := [("next_instruction", .str "go")], ctx := "ctx", id := "id7",
    ts := 9 }

/-! ## Witnesses -/

/-- Witness for claim C2 at a concrete mastery state. -/
theorem mastery_is_terminal_witness :
    step masteryState (.submitReply 1 2 (.error "boom")) = (masteryState, false)
    ∧ ((step masteryState .toggleHistory).1.isMasteryAchieved = true
        ∨ startsNewSession .toggleHistory = true) :=
  mastery_is_terminal masteryState .toggleHistory 1 2 (.error "boom") rfl

/-- Witness for claim C4 at a concrete pending upload and history item. -/
theorem transcript_initialized_witness :
    (handleInitialAnalysis imageState 1 2 "id1" (.ok diagEx)).1.diagnosis
        = some diagEx
    ∧ (handleInitialAnalysis imageState 1 2 "id1" (.ok diagEx)).1.chatHistory
        = [{ role := .tutor, content := diagEx.next_instruction,
             audioUrl := none, timestamp := 1, feedbackType := some .INFO }]
    ∧ (handleHistorySelect idleState itemEx).diagnosis
        = some itemEx.toInitialDiagnosis
    ∧ (handleHistorySelect idleState itemEx).chatHistory
        = [{ role := .tutor, content := itemEx.next_instruction,
             audioUrl := none, timestamp := itemEx.timestamp,
             feedbackType := some .INFO }] :=
  transcript_initialized_from_next_instruction imageState idleState 1 2 "id1"
    diagEx itemEx (by decide)

/-- Witness for claim C5 at a concrete active session. -/
theorem practice_reply_success_witness :
    (handlePracticeReply activeState 3 4 (.ok fbEx)).2 = true
    ∧ (handlePracticeReply activeState 3 4 (.ok fbEx)).1.chatHistory
        = activeState.chatHistory
            ++ [userMsgOf activeState 3, tutorMsgOf fbEx 4]
    ∧ (userMsgOf activeState 3).content
        = (if activeState.replyText = "" then "(Audio Response)"
           else activeState.replyText)
    ∧ (tutorMsgOf fbEx 4).content
        = fbEx.feedback_message ++ " " ++ fbEx.next_instruction
    ∧ (tutorMsgOf fbEx 4).feedbackType
        = some (evalToFb fbEx.evaluation_result)
    ∧ (handlePracticeReply activeState 3 4 (.ok fbEx)).1.diagnosis
        = some diagEx
    ∧ (handlePracticeReply activeState 3 4 (.ok fbEx)).1.isMasteryAchieved
        = decide (fbEx.dialogue_action = .MASTERY_ACHIEVED) :=
  practice_reply_success activeState 3 4 fbEx diagEx rfl (.inl (by decide))
    rfl

/-- Witness for claim C6 at a concrete active session. -/
theorem practice_reply_failure_witness :
    (handlePracticeReply activeState 3 4 (.error "boom")).2 = true
    ∧ (handlePracticeReply activeState 3 4 (.error "boom")).1.chatHistory
        = activeState.chatHistory ++ [userMsgOf activeState 3]
    ∧ (handlePracticeReply activeState 3 4 (.error "boom")).1.diagnosis
        = activeState.diagnosis
    ∧ (handlePracticeReply activeState 3 4 (.error "boom")).1.isMasteryAchieved
        = activeState.isMasteryAchieved
    ∧ (handlePracticeReply activeState 3 4 (.error "boom")).1.error
        = some (if "boom" = "" then "Failed to get feedback." else "boom") :=
  practice_reply_failure activeState 3 4 "boom" diagEx rfl (.inl (by decide))

/-- Witness for claim C7 at a concrete empty store. -/
theorem saveToHistory_ordering_witness :
    (saveToHistory (.value (.arr [])) argsEx.result argsEx.ctx argsEx.id
        argsEx.ts
      = some (.value (.arr (itemOf argsEx :: ([] : List Json).take 49)),
              itemOf argsEx))
    ∧ (([] : List Json).take 49).Sublist []
    ∧ (∃ b, recordAll (.value (.arr [])) ([] ++ [argsEx]) = some b
        ∧ getHistory b
            = .arr (itemOf argsEx
                :: ((([] : List SaveArgs).map itemOf).reverse
                    ++ ([] : List Json)).take 49)
        ∧ (((([] : List SaveArgs).map itemOf).reverse
              ++ ([] : List Json)).take 49).Sublist
            ((([] : List SaveArgs).map itemOf).reverse ++ [])) :=
  saveToHistory_ordering [] argsEx [] (by decide)

/-- Witness for claim C8 at a concrete PDF upload. -/
theorem invalid_upload_witness :
    ∃ m, validateFile { type := "application/pdf", size := 100 } = some m
      ∧ step idleState (.uploadImage { type := "application/pdf", size := 100 })
          = ({ idleState with error := some m }, false) :=
  invalid_upload_rejected_locally idleState
    { type := "application/pdf", size := 100 } (.inl (by decide))

/-- Witness for claim C9 at a concrete idle state. -/
theorem practice_reply_noop_witness :
    handlePracticeReply idleState 1 2 (.error "boom") = (idleState, false) :=
  practice_reply_noop idleState 1 2 (.error "boom") (.inl ⟨rfl, rfl⟩)
